import Mathlib

/-!
Verification of the SSH port-forwarding engine (jerryliang122/SSH-port-forwarding-GUI).

The development shallowly embeds the two core modules:
  * `src/core/port_forwarder.py` (class `PortForwarder`): the forwarding
    registry (`add_forwarding`, `start_forwarding`, `stop_forwarding`,
    `get_all_forwardings`), its SOCKS5 handler, and the byte pump.
  * `src/core/ssh_manager.py` (class `SSHManager`): the session registry
    (`connect`), its stop routine, and its SOCKS5 handler.
  * `src/utils/encryption.py` (class `Encryption`): the string
    encryption envelope, with the cryptography/base64/utf-8 library
    calls abstracted by structures carrying their documented contracts.

Python dicts are modelled as insertion-ordered association lists, bytes as
`List Nat`, and opaque handles (sockets, channels, clients) as markers.
-/

namespace SSHFwd

/-! ## Forwarding configuration and identity (port_forwarder.py) -/

/-- Configuration dict passed to `PortForwarder.add_forwarding`.  The Python
code reads these keys with `.get`; the model carries them as plain fields.
`has_ssh_client` records whether the `ssh_client` entry is present
(checked only by `_start_remote_forwarding`). -/
structure ForwardingConfig where
  local_host : String
  local_port : Nat
  remote_host : String
  remote_port : Nat
  bind_host : String
  bind_port : Nat
  internal_host : String
  internal_port : Nat
  has_ssh_client : Bool
deriving DecidableEq, Repr

/-- Identity string computed by `PortForwarder.add_forwarding`
(port_forwarder.py lines 39-48): `local:{local_host}:{local_port}`,
`remote:{remote_host}:{remote_port}`, `dynamic:{bind_host}:{bind_port}`,
`internal:{internal_host}:{internal_port}`; any other type yields `None`. -/
def forwardingId (ty : String) (c : ForwardingConfig) : Option String :=
  if ty = "local" then
    some ("local:" ++ c.local_host ++ ":" ++ toString c.local_port)
  else if ty = "remote" then
    some ("remote:" ++ c.remote_host ++ ":" ++ toString c.remote_port)
  else if ty = "dynamic" then
    some ("dynamic:" ++ c.bind_host ++ ":" ++ toString c.bind_port)
  else if ty = "internal" then
    some ("internal:" ++ c.internal_host ++ ":" ++ toString c.internal_port)
  else
    none

/-- Local listener bind address used by the kind-specific start routines:
`_start_local_forwarding` binds `(local_host, local_port)`,
`_start_dynamic_forwarding` binds `(bind_host, bind_port)`,
`_start_internal_forwarding` binds `(local_host, local_port)`
(port_forwarder.py lines 249-255, 345-351, 393-402).  A remote forwarder has
no local listener (its remote-side bind is `(remote_host, remote_port)`). -/
def listenerBind (ty : String) (c : ForwardingConfig) : Option (String × Nat) :=
  if ty = "local" then some (c.local_host, c.local_port)
  else if ty = "dynamic" then some (c.bind_host, c.bind_port)
  else if ty = "internal" then some (c.local_host, c.local_port)
  else none

/-- Runtime record stored in `PortForwarder.forwardings` (lines 56-68).
`hasListener` models `server_socket is not None`; `connCount` models
`len(connections)`; the opaque `thread` handle is omitted. -/
structure ForwardingInfo where
  id : String
  ftype : String
  config : ForwardingConfig
  active : Bool
  hasListener : Bool
  connCount : Nat
  bytes_sent : Nat
  bytes_received : Nat
  start_time : Nat
  error : Option String
deriving DecidableEq, Repr

/-- Fresh record created by `add_forwarding` (lines 56-68). -/
def initInfo (fid ty : String) (c : ForwardingConfig) : ForwardingInfo :=
  { id := fid, ftype := ty, config := c, active := false,
    hasListener := false, connCount := 0,
    bytes_sent := 0, bytes_received := 0, start_time := 0, error := none }

/-- Registry of forwarders: the Python dict `self.forwardings`, as an
insertion-ordered association list keyed by the identity string. -/
abbrev FwdRegistry := List (String × ForwardingInfo)

/-- Model of `PortForwarder.add_forwarding` (lines 26-76): compute the
identity; unknown type or an existing identity returns `none` leaving the
registry unchanged; otherwise insert a fresh inactive record. -/
def add_forwarding (s : FwdRegistry) (ty : String) (c : ForwardingConfig) :
    Option String × FwdRegistry :=
  match forwardingId ty c with
  | none => (none, s)
  | some fid =>
      if (s.lookup fid).isSome then (none, s)
      else (some fid, s ++ [(fid, initInfo fid ty c)])

/-- Model of `PortForwarder.get_all_forwardings` (lines 227-235):
`list(self.forwardings.values())`. -/
def get_all_forwardings (s : FwdRegistry) : List ForwardingInfo :=
  s.map Prod.snd

/-! ## Record-level transitions (port_forwarder.py) -/

/-- Successful start of a forwarder record: the kind-specific start routines
set `server_socket` (for local/dynamic/internal only), `active = True`,
`start_time = time.time()` and `error = None` (lines 258-262, 318-321,
354-358, 405-409). -/
def startOkRecord (setListener : Bool) (now : Nat) (f : ForwardingInfo) :
    ForwardingInfo :=
  { f with hasListener := if setListener then true else f.hasListener,
           active := true, start_time := now, error := none }

/-- Failed start: the except branches record `forwarding["error"] = str(e)`
and leave everything else unchanged (lines 278-281 etc.). -/
def setErrRecord (msg : String) (f : ForwardingInfo) : ForwardingInfo :=
  { f with error := some msg }

/-- Effect of `stop_forwarding` on an active record (lines 138-161): clear
the active flag, close listener and connections, and empty the connection
list.  The byte counters are not touched. -/
def stopRecord (f : ForwardingInfo) : ForwardingInfo :=
  { f with active := false, connCount := 0 }

/-- Replace the value stored under key `k` (Python dict item mutation). -/
def updateEntry (s : FwdRegistry) (k : String)
    (g : ForwardingInfo → ForwardingInfo) : FwdRegistry :=
  s.map (fun kv => if kv.1 = k then (kv.1, g kv.2) else kv)

/-- Model of `PortForwarder.start_forwarding` (lines 78-115) together with
the kind-specific `_start_*_forwarding` routines.  `bindOk` abstracts the
fallible OS/transport step (listener bind, `request_port_forward`); `now`
abstracts `time.time()`.  Returns the boolean result, the new registry, and
the list of `forwarding_status_changed` emissions. -/
def start_forwarding (bindOk : Bool) (now : Nat) (s : FwdRegistry)
    (fid : String) : Bool × FwdRegistry × List (String × Bool) :=
  match s.lookup fid with
  | none => (false, s, [])
  | some f =>
      if f.active then (true, s, [])
      else if f.ftype = "local" then
        if bindOk then
          (true, updateEntry s fid (startOkRecord true now), [(fid, true)])
        else (false, updateEntry s fid (setErrRecord "bind failed"), [])
      else if f.ftype = "remote" then
        if f.config.has_ssh_client = false then
          (false, updateEntry s fid (setErrRecord "SSH client not provided"), [])
        else if bindOk then
          (true, updateEntry s fid (startOkRecord false now), [(fid, true)])
        else
          (false, updateEntry s fid (setErrRecord "port forward request failed"), [])
      else if f.ftype = "dynamic" then
        if bindOk then
          (true, updateEntry s fid (startOkRecord true now), [(fid, true)])
        else (false, updateEntry s fid (setErrRecord "bind failed"), [])
      else if f.ftype = "internal" then
        if f.config.internal_host = "" ∨ f.config.internal_port = 0 ∨
            f.config.local_port = 0 then
          (false, updateEntry s fid (setErrRecord "missing forwarding config"), [])
        else if bindOk then
          (true, updateEntry s fid (startOkRecord true now), [(fid, true)])
        else (false, updateEntry s fid (setErrRecord "bind failed"), [])
      else (false, s, [])

/-- Model of `PortForwarder.stop_forwarding` (lines 117-170): missing id is
a failure; an already-inactive record is a successful no-op with no
emission; an active record is stopped, its connections closed and cleared,
and one `forwarding_status_changed(False)` emitted. -/
def stop_forwarding (s : FwdRegistry) (fid : String) :
    Bool × FwdRegistry × List (String × Bool) :=
  match s.lookup fid with
  | none => (false, s, [])
  | some f =>
      if f.active = false then (true, s, [])
      else (true, updateEntry s fid stopRecord, [(fid, false)])

/-! ## Operations touching one forwarder record, for the counter invariant -/

/-- Every mutation the code performs on a forwarder record while it is in
the registry: the start transitions above, stop, connection bookkeeping of
the accept loops, and the two byte-pump steps of `_handle_forwarding`
(lines 885-906), which add `len(data)` to a counter. -/
inductive FwdOp where
  | startListenerOk (now : Nat)
  | startRemoteOk (now : Nat)
  | startFail (msg : String)
  | stopOp
  | acceptConn
  | dropConn
  | pumpSent (n : Nat)
  | pumpRecv (n : Nat)
deriving DecidableEq, Repr

/-- Apply one operation to a record. -/
def applyOp (f : ForwardingInfo) : FwdOp → ForwardingInfo
  | .startListenerOk now => startOkRecord true now f
  | .startRemoteOk now => startOkRecord false now f
  | .startFail msg => setErrRecord msg f
  | .stopOp => stopRecord f
  | .acceptConn => { f with connCount := f.connCount + 1 }
  | .dropConn => { f with connCount := f.connCount - 1 }
  | .pumpSent n => { f with bytes_sent := f.bytes_sent + n }
  | .pumpRecv n => { f with bytes_received := f.bytes_received + n }

/-! ## Stop traces, for the remote-stop ordering claim -/

/-- Side effects performed by a stop routine, in program order. -/
inductive StopAction where
  | closeListener
  | cancelPortForward (host : String) (port : Nat)
  | closeConn (i : Nat)
  | emitStatus (active : Bool)
deriving DecidableEq, Repr

/-- Boolean recognizer for `cancelPortForward` actions. -/
def StopAction.isCancel : StopAction → Bool
  | .cancelPortForward _ _ => true
  | _ => false

/-- Boolean recognizer for `closeConn` actions. -/
def StopAction.isCloseConn : StopAction → Bool
  | .closeConn _ => true
  | _ => false

/-- Side-effect trace of `PortForwarder.stop_forwarding` on a present record
(lines 127-166): nothing if already inactive; otherwise close the server
socket if present, close every live connection (socket and channel), and
emit the status signal.  No branch ever calls `cancel_port_forward`. -/
def pfStopTrace (f : ForwardingInfo) : List StopAction :=
  if f.active = false then []
  else
    (if f.hasListener then [StopAction.closeListener] else []) ++
    ((List.range f.connCount).map StopAction.closeConn) ++
    [StopAction.emitStatus false]

/-- Runtime record stored in `SSHManager.forwardings`
(ssh_manager.py lines 143-153, 199-209, 252-260). -/
structure SshForwarding where
  ftype : String
  remote_host : String
  remote_port : Nat
  local_host : String
  local_port : Nat
  bind_host : String
  bind_port : Nat
  hasTransport : Bool
  active : Bool
deriving DecidableEq, Repr

/-- Side-effect trace of `SSHManager.stop_forwarding` (lines 284-337): for
a remote forwarding it calls `transport.cancel_port_forward(remote_host,
remote_port)` when a transport is present, then marks inactive and removes
the registry entry; for local/dynamic it only marks inactive; in every case
it finally emits `forwarding_status_changed(False)`.  No live connection is
ever closed. -/
def sshStopTrace (f : SshForwarding) : List StopAction :=
  if f.ftype = "local" then [StopAction.emitStatus false]
  else if f.ftype = "remote" then
    (if f.hasTransport then
      [StopAction.cancelPortForward f.remote_host f.remote_port]
    else []) ++ [StopAction.emitStatus false]
  else if f.ftype = "dynamic" then [StopAction.emitStatus false]
  else [StopAction.emitStatus false]

/-! ## SSHManager.connect (ssh_manager.py lines 27-78) -/

/-- Session identity `f"{host}:{port}:{username}"` (line 68). -/
def clientId (host : String) (port : Nat) (user : String) : String :=
  host ++ ":" ++ toString port ++ ":" ++ user

/-- Keyword arguments assembled by `connect` (lines 48-62).  `pkey` carries
whether a passphrase was used for `RSAKey.from_private_key_file`. -/
structure ConnectKwargs where
  hostname : String
  port : Nat
  username : String
  timeout : Nat
  pkey : Option Bool
  password : Option String
deriving DecidableEq, Repr

/-- Model of the argument assembly in `connect`: `if key_path and
os.path.exists(key_path): pkey = ... elif password: password = ...`.
The two authentication methods are chosen by an `if`/`elif`, so at most one
of them ever reaches `client.connect`. -/
def buildConnectKwargs (host : String) (port : Nat) (username : String)
    (password key_path passphrase : String) (pathExists : String → Bool) :
    ConnectKwargs :=
  if key_path ≠ "" ∧ pathExists key_path = true then
    { hostname := host, port := port, username := username, timeout := 10,
      pkey := some (passphrase != ""), password := none }
  else if password ≠ "" then
    { hostname := host, port := port, username := username, timeout := 10,
      pkey := none, password := some password }
  else
    { hostname := host, port := port, username := username, timeout := 10,
      pkey := none, password := none }

/-- Session registry `self.clients`: dict keyed by `clientId`, with opaque
client handles modelled as naturals. -/
abbrev ClientRegistry := List (String × Nat)

/-- Python dict assignment `self.clients[client_id] = client`: replace an
existing entry in place, otherwise append. -/
def setClient (s : ClientRegistry) (k : String) (v : Nat) : ClientRegistry :=
  if (s.lookup k).isSome then
    s.map (fun kv => if kv.1 = k then (k, v) else kv)
  else s ++ [(k, v)]

/-- Registry effect of `SSHManager.connect` (lines 64-74): `authOk`
abstracts the fallible network/authentication step (`client.connect`); on
success the new client is stored under its identity — there is no check
whether the identity already exists — and returned; on failure the registry
is untouched and `None` is returned. -/
def sshConnect (s : ClientRegistry) (host : String) (port : Nat)
    (user : String) (newClient : Nat) (authOk : Bool) :
    Option Nat × ClientRegistry :=
  if authOk then (some newClient, setClient s (clientId host port user) newClient)
  else (none, s)

/-! ## SOCKS5 handlers

The client byte stream is a `List Nat`; `recv(n)` on an open stream with
enough data delivers `n` bytes, modelled by `readN`.  A handler returns the
bytes it wrote back to the client and, when a byte pump is started, the
parsed connect target.  `chanOk` abstracts the fallible
`transport.open_channel` call. -/

/-- Exact read of `n` bytes from the stream. -/
def readN (n : Nat) (s : List Nat) : Option (List Nat × List Nat) :=
  if n ≤ s.length then some (s.take n, s.drop n) else none

/-- Target address parsed from a SOCKS5 request, carrying the raw bytes
read from the wire (their textual rendering — `inet_ntoa`, UTF-8 decode,
`inet_ntop` — is a library call on top of these bytes). -/
inductive SocksAddr where
  | ipv4 (bytes : List Nat)
  | domain (bytes : List Nat)
  | ipv6 (bytes : List Nat)
deriving DecidableEq, Repr

/-- Model of `SSHManager._handle_socks_connection`
(ssh_manager.py lines 498-582).  Greeting: 2 bytes, version must be 5,
`nmethods` method bytes are read and ignored, reply `05 00`.  Request: 4
bytes; `CMD != 1` replies `05 07 00 01 00 00 00 00 00 00` and closes.
Address: ATYP 1 reads 4 bytes, ATYP 3 reads a length byte then that many
bytes, ATYP 4 reads 16 bytes; otherwise reply `05 08 ...` and close.
Then 2 big-endian port bytes; open the channel; on failure reply
`05 04 ...` and close, on success reply `05 00 00 01 00 00 00 00 00 00`
and pump. -/
def sshHandleSocks (chanOk : Bool) (input : List Nat) :
    List Nat × Option (SocksAddr × Nat) :=
  match readN 2 input with
  | none => ([], none)
  | some (hdr, r1) =>
    let version := hdr.headD 0
    let nmethods := (hdr.drop 1).headD 0
    if version ≠ 5 then ([], none)
    else
      let r2 := r1.drop nmethods
      let sent := [5, 0]
      match readN 4 r2 with
      | none => (sent, none)
      | some (req, r3) =>
        let cmd := (req.drop 1).headD 0
        let atyp := (req.drop 3).headD 0
        if cmd ≠ 1 then (sent ++ [5, 7, 0, 1, 0, 0, 0, 0, 0, 0], none)
        else
          let parsed : Option (SocksAddr × List Nat) :=
            if atyp = 1 then
              match readN 4 r3 with
              | none => none
              | some (a, r4) => some (SocksAddr.ipv4 a, r4)
            else if atyp = 3 then
              match readN 1 r3 with
              | none => none
              | some (l, r4) =>
                match readN (l.headD 0) r4 with
                | none => none
                | some (a, r5) => some (SocksAddr.domain a, r5)
            else if atyp = 4 then
              match readN 16 r3 with
              | none => none
              | some (a, r4) => some (SocksAddr.ipv6 a, r4)
            else none
          if atyp ≠ 1 ∧ atyp ≠ 3 ∧ atyp ≠ 4 then
            (sent ++ [5, 8, 0, 1, 0, 0, 0, 0, 0, 0], none)
          else
            match parsed with
            | none => (sent, none)
            | some (addr, r4) =>
              match readN 2 r4 with
              | none => (sent, none)
              | some (pb, _) =>
                let port := (pb.headD 0) * 256 + ((pb.drop 1).headD 0)
                if chanOk then
                  (sent ++ [5, 0, 0, 1, 0, 0, 0, 0, 0, 0], some (addr, port))
                else
                  (sent ++ [5, 4, 0, 1, 0, 0, 0, 0, 0, 0], none)

/-- Model of the live `PortForwarder._handle_socks_connection`
(port_forwarder.py lines 658-751).  Same greeting; but `CMD != 1` closes
the client without any reply (lines 700-702), only ATYP 1 (IPv4) is
handled, and any other ATYP closes without a reply (lines 742-744).  In
the IPv4 path the success reply `05 00 00 01 00 00 00 00 00 00` is sent
after `open_channel` returns (a raising `open_channel` lands in the except
branch, which closes the client without replying). -/
def pfHandleSocks (chanOk : Bool) (input : List Nat) :
    List Nat × Option (SocksAddr × Nat) :=
  match readN 2 input with
  | none => ([], none)
  | some (hdr, r1) =>
    let version := hdr.headD 0
    let nmethods := (hdr.drop 1).headD 0
    if version ≠ 5 then ([], none)
    else
      let r2 := r1.drop nmethods
      let sent := [5, 0]
      match readN 4 r2 with
      | none => (sent, none)
      | some (req, r3) =>
        let cmd := (req.drop 1).headD 0
        let atyp := (req.drop 3).headD 0
        if cmd ≠ 1 then (sent, none)
        else if atyp = 1 then
          match readN 4 r3 with
          | none => (sent, none)
          | some (a, r4) =>
            match readN 2 r4 with
            | none => (sent, none)
            | some (pb, _) =>
              let port := (pb.headD 0) * 256 + ((pb.drop 1).headD 0)
              if chanOk then
                (sent ++ [5, 0, 0, 1, 0, 0, 0, 0, 0, 0],
                 some (SocksAddr.ipv4 a, port))
              else (sent, none)
        else (sent, none)

/-! ## Encryption envelope (src/utils/encryption.py)

The library primitives — `cryptography.fernet.Fernet`, `base64.b64encode`/
`b64decode`, and `str.encode("utf-8")`/`bytes.decode("utf-8")` — are
abstracted as structures carrying exactly their documented contracts:
encryption/encoding followed by the matching decryption/decoding is the
identity, and a Fernet token (resp. the base64 text of nonempty bytes) is
never empty. -/

/-- Contract of `Fernet(key).encrypt` / `Fernet(key).decrypt` for one
fixed key: decryption inverts encryption and tokens are nonempty. -/
structure FernetBox where
  enc : List Nat → List Nat
  dec : List Nat → Option (List Nat)
  enc_ne : ∀ m, enc m ≠ []
  dec_enc : ∀ m, dec (enc m) = some m

/-- Contract of `str.encode("utf-8")` / `bytes.decode("utf-8")`. -/
structure Utf8Codec where
  enc : String → List Nat
  dec : List Nat → Option String
  dec_enc : ∀ s, dec (enc s) = some s

/-- Contract of `base64.b64encode(...).decode("utf-8")` /
`base64.b64decode`: decoding inverts encoding, and the base64 text of
nonempty bytes is a nonempty string. -/
structure Base64Codec where
  enc : List Nat → String
  dec : String → Option (List Nat)
  dec_enc : ∀ b, dec (enc b) = some b
  enc_ne : ∀ b, b ≠ [] → enc b ≠ ""

/-- Model of `Encryption.encrypt` (lines 52-68): empty input short-circuits
to `b""`; otherwise Fernet-encrypt the UTF-8 bytes. -/
def encryptBytes (F : FernetBox) (U : Utf8Codec) (data : String) : List Nat :=
  if data = "" then [] else F.enc (U.enc data)

/-- Model of `Encryption.decrypt` (lines 70-90): empty input gives `""`;
any failure inside the `try` (bad token, bad UTF-8) gives `""`. -/
def decryptBytes (F : FernetBox) (U : Utf8Codec) (e : List Nat) : String :=
  if e = [] then ""
  else
    match F.dec e with
    | none => ""
    | some m =>
      match U.dec m with
      | none => ""
      | some s => s

/-- Model of `Encryption.encrypt_to_string` (lines 92-105):
`base64.b64encode(encrypted).decode("utf-8") if encrypted else ""`. -/
def encrypt_to_string (F : FernetBox) (U : Utf8Codec) (B : Base64Codec)
    (data : String) : String :=
  let e := encryptBytes F U data
  if e = [] then "" else B.enc e

/-- Model of `Encryption.decrypt_from_string` (lines 107-126): empty input
gives `""`; base64-decode then decrypt, with any failure giving `""`. -/
def decrypt_from_string (F : FernetBox) (U : Utf8Codec) (B : Base64Codec)
    (s : String) : String :=
  if s = "" then ""
  else
    match B.dec s with
    | none => ""
    | some e => decryptBytes F U e

/-! ## Association-list helper lemmas -/

/-- Unfolding of `List.lookup` on a cons cell with string keys. -/
theorem lookup_cons_key {β : Type} (t : List (String × β)) (k k1 : String)
    (v1 : β) :
    List.lookup k ((k1, v1) :: t) =
      if k = k1 then some v1 else List.lookup k t := by
  by_cases h : k = k1
  · simp [List.lookup, h]
  · have hb : (k == k1) = false := beq_false_of_ne h
    simp [List.lookup, hb, h]

/-- Looking up a key that answers `isSome` places it among the dict keys. -/
theorem mem_keys_of_lookup_isSome {β : Type} (s : List (String × β)) (k : String)
    (h : (s.lookup k).isSome = true) : k ∈ s.map Prod.fst := by
  induction s with
  | nil => simp [List.lookup] at h
  | cons hd t ih =>
      rcases hd with ⟨k1, v1⟩
      by_cases hk : k = k1
      · simp [hk]
      · rw [lookup_cons_key, if_neg hk] at h
        simp only [List.map_cons, List.mem_cons]
        exact Or.inr (ih h)

/-- Updating the entry under `k` changes exactly the value looked up at `k`. -/
theorem lookup_updateEntry (s : FwdRegistry) (k : String)
    (g : ForwardingInfo → ForwardingInfo) :
    (updateEntry s k g).lookup k = (s.lookup k).map g := by
  induction s with
  | nil => simp [updateEntry]
  | cons hd t ih =>
      rcases hd with ⟨k1, v1⟩
      by_cases hk : k1 = k
      · subst hk
        simp [updateEntry, lookup_cons_key]
      · have hk2 : ¬ k = k1 := fun h => hk h.symm
        simp only [updateEntry, List.map_cons] at ih ⊢
        rw [if_neg hk, lookup_cons_key, lookup_cons_key, if_neg hk2, if_neg hk2]
        exact ih

/-- Dict assignment stores the value under the key. -/
theorem lookup_setClient (s : ClientRegistry) (k : String) (v : Nat) :
    (setClient s k v).lookup k = some v := by
  unfold setClient
  by_cases hs : (s.lookup k).isSome = true
  · rw [if_pos hs]
    induction s with
    | nil => simp [List.lookup] at hs
    | cons hd t ih =>
        rcases hd with ⟨k1, v1⟩
        by_cases hk : k1 = k
        · subst hk
          simp [lookup_cons_key]
        · have hk2 : ¬ k = k1 := fun h => hk h.symm
          rw [lookup_cons_key, if_neg hk2] at hs
          simp only [List.map_cons]
          rw [if_neg hk, lookup_cons_key, if_neg hk2]
          exact ih hs
  · rw [if_neg hs]
    induction s with
    | nil => simp [lookup_cons_key]
    | cons hd t ih =>
        rcases hd with ⟨k1, v1⟩
        by_cases hk : k1 = k
        · subst hk
          rw [lookup_cons_key, if_pos rfl] at hs
          simp at hs
        · have hk2 : ¬ k = k1 := fun h => hk h.symm
          rw [lookup_cons_key, if_neg hk2] at hs
          rw [List.cons_append, lookup_cons_key, if_neg hk2]
          exact ih hs

/-! ## Claim theorems -/

/-- Concrete internal-forwarding configuration used as a counterexample:
listener bind `127.0.0.1:8080`, internal target `10.0.0.5:80`. -/
def internalCfg : ForwardingConfig :=
  { local_host := "127.0.0.1", local_port := 8080,
    remote_host := "", remote_port := 0,
    bind_host := "", bind_port := 0,
    internal_host := "10.0.0.5", internal_port := 80,
    has_ssh_client := true }

/-- C1 counterexample: for an internal forwarder the registry key produced
by `add_forwarding` is built from the internal target
`internal_host:internal_port`, not from the listener bind address
`local_host:local_port` as the claim states. -/
theorem c1_internal_identity_counterexample :
    forwardingId "internal" internalCfg = some "internal:10.0.0.5:80" ∧
    listenerBind "internal" internalCfg = some ("127.0.0.1", 8080) ∧
    "internal:10.0.0.5:80" ≠
      "internal:" ++ "127.0.0.1" ++ ":" ++ toString (8080 : Nat) := by
  refine ⟨rfl, rfl, ?_⟩
  decide

/-- C1 (amended): the identity is `"{type}:{bind_host}:{bind_port}"` built
from the listener bind for local and dynamic forwarders and from the
remote-side bind for remote forwarders; but for internal forwarders it is
built from the internal target `internal_host:internal_port`, while the
listener bind is `local_host:local_port`. -/
theorem c1_identity_amended (c : ForwardingConfig) :
    forwardingId "local" c =
      (listenerBind "local" c).map
        (fun bp => "local:" ++ bp.1 ++ ":" ++ toString bp.2) ∧
    forwardingId "dynamic" c =
      (listenerBind "dynamic" c).map
        (fun bp => "dynamic:" ++ bp.1 ++ ":" ++ toString bp.2) ∧
    forwardingId "remote" c =
      some ("remote:" ++ c.remote_host ++ ":" ++ toString c.remote_port) ∧
    forwardingId "internal" c =
      some ("internal:" ++ c.internal_host ++ ":" ++ toString c.internal_port) ∧
    listenerBind "internal" c = some (c.local_host, c.local_port) :=
  ⟨rfl, rfl, rfl, rfl, rfl⟩

/-- C2 counterexample: with `"h:22:u"` already bound to client `1`,
`connect("h", 22, "u")` (auth succeeding, new handle `2`) returns the new
client — not a failure — and overwrites the existing registry entry. -/
theorem c2_connect_duplicate_counterexample :
    sshConnect [(clientId "h" 22 "u", 1)] "h" 22 "u" 2 true =
      (some 2, [(clientId "h" 22 "u", 2)]) := by
  decide

/-- C2 (amended): `connect` performs no duplicate-identity check: whenever
the underlying connection/authentication succeeds it returns the new
client and stores it under the identity, silently replacing any existing
entry; it never returns a failure because the identity exists. -/
theorem c2_connect_overwrites_amended (s : ClientRegistry) (host : String)
    (port : Nat) (user : String) (nc : Nat) :
    (sshConnect s host port user nc true).1 = some nc ∧
    ((sshConnect s host port user nc true).2).lookup (clientId host port user)
      = some nc := by
  constructor
  · rfl
  · simpa [sshConnect] using lookup_setClient s (clientId host port user) nc

/-- C3: a duplicate `add_forwarding` returns `None` and leaves the registry
— including the existing record with all its fields — untouched, and the
registry holds exactly one entry under that identity. -/
theorem c3_duplicate_add_noop (s : FwdRegistry) (ty : String)
    (c : ForwardingConfig) (fid : String)
    (hid : forwardingId ty c = some fid)
    (hmem : (s.lookup fid).isSome = true)
    (hnd : (s.map Prod.fst).Nodup) :
    add_forwarding s ty c = (none, s) ∧ (s.map Prod.fst).count fid = 1 := by
  constructor
  · simp [add_forwarding, hid, hmem]
  · exact List.count_eq_one_of_mem hnd (mem_keys_of_lookup_isSome s fid hmem)

/-- Concrete local-forwarding configuration for witnesses. -/
def localCfg : ForwardingConfig :=
  { local_host := "127.0.0.1", local_port := 8000,
    remote_host := "127.0.0.1", remote_port := 9000,
    bind_host := "", bind_port := 0,
    internal_host := "", internal_port := 0,
    has_ssh_client := true }

/-- C3 witness: the duplicate-add property at a concrete one-entry
registry. -/
theorem c3_duplicate_add_noop_witness :
    add_forwarding
        [("local:127.0.0.1:8000", initInfo "local:127.0.0.1:8000" "local" localCfg)]
        "local" localCfg =
      (none,
        [("local:127.0.0.1:8000", initInfo "local:127.0.0.1:8000" "local" localCfg)]) ∧
    (([("local:127.0.0.1:8000",
        initInfo "local:127.0.0.1:8000" "local" localCfg)].map Prod.fst).count
      "local:127.0.0.1:8000") = 1 :=
  c3_duplicate_add_noop _ "local" localCfg "local:127.0.0.1:8000"
    (by decide) (by decide) (by decide)

/-- C4 (code bug witness): on the BIND request `05 02 00 01 7F 00 00 01 00 50`
after the standard greeting, `SSHManager`'s handler sends exactly the
10-byte reply `05 07 00 01 00 00 00 00 00 00` before closing, but
`PortForwarder._handle_socks_connection` (lines 700-702) closes the client
after only the method-select reply `05 00`, never sending the mandated
CMD-unsupported reply. -/
theorem c4_socks_cmd_reply_divergence :
    sshHandleSocks true ([5, 1, 0] ++ [5, 2, 0, 1] ++ [127, 0, 0, 1, 0, 80]) =
      ([5, 0, 5, 7, 0, 1, 0, 0, 0, 0, 0, 0], none) ∧
    pfHandleSocks true ([5, 1, 0] ++ [5, 2, 0, 1] ++ [127, 0, 0, 1, 0, 80]) =
      ([5, 0], none) := by
  exact ⟨rfl, rfl⟩

/-- C5 (code bug witness): `SSHManager`'s handler accepts ATYP 1 (4-byte
IPv4), ATYP 3 (length byte then that many host bytes), ATYP 4 (16-byte
IPv6), proceeding to open the channel with the parsed target and big-endian
port, and rejects any other ATYP with `05 08 00 01 00 00 00 00 00 00`;
but the live `PortForwarder._handle_socks_connection` (lines 704-744)
supports only ATYP 1 and closes a DOMAIN request without reply and without
opening a channel. -/
theorem c5_socks_atyp_divergence :
    sshHandleSocks true ([5, 1, 0] ++ [5, 1, 0, 1] ++ [10, 0, 0, 1] ++ [0, 80]) =
      ([5, 0, 5, 0, 0, 1, 0, 0, 0, 0, 0, 0], some (SocksAddr.ipv4 [10, 0, 0, 1], 80)) ∧
    sshHandleSocks true ([5, 1, 0] ++ [5, 1, 0, 3] ++ [3, 97, 98, 99] ++ [1, 187]) =
      ([5, 0, 5, 0, 0, 1, 0, 0, 0, 0, 0, 0], some (SocksAddr.domain [97, 98, 99], 443)) ∧
    sshHandleSocks true ([5, 1, 0] ++ [5, 1, 0, 4] ++
        [0, 0, 0, 0, 0, 0, 0, 0, 0, 0, 0, 0, 0, 0, 0, 1] ++ [0, 22]) =
      ([5, 0, 5, 0, 0, 1, 0, 0, 0, 0, 0, 0],
        some (SocksAddr.ipv6 [0, 0, 0, 0, 0, 0, 0, 0, 0, 0, 0, 0, 0, 0, 0, 1], 22)) ∧
    sshHandleSocks true ([5, 1, 0] ++ [5, 1, 0, 2] ++ [9, 9]) =
      ([5, 0, 5, 8, 0, 1, 0, 0, 0, 0, 0, 0], none) ∧
    pfHandleSocks true ([5, 1, 0] ++ [5, 1, 0, 3] ++ [3, 97, 98, 99] ++ [1, 187]) =
      ([5, 0], none) := by
  exact ⟨rfl, rfl, rfl, rfl, rfl⟩

/-- C6 counterexample: with a readable key file and a password both
supplied, the keyword arguments passed to `client.connect` contain the
private key and no password at all — so when key authentication fails,
password authentication cannot be attempted. -/
theorem c6_password_fallback_counterexample :
    (buildConnectKwargs "h" 22 "u" "pw" "/k" "" (fun _ => true)).password
        = none ∧
    (buildConnectKwargs "h" 22 "u" "pw" "/k" "" (fun _ => true)).pkey
        = some false := by
  exact ⟨rfl, rfl⟩

/-- C6 (amended): the `if`/`elif` of `connect` (lines 56-62) makes the two
authentication methods mutually exclusive: a readable nonempty `key_path`
configures public-key auth (with the passphrase iff nonempty) and discards
the password; otherwise a nonempty password configures password auth; at
most one method is ever handed to `client.connect`, so there is no
password fallback after a key-auth failure. -/
theorem c6_auth_exclusive_amended (host : String) (port : Nat)
    (user pw kp ph : String) (ex : String → Bool) :
    (kp ≠ "" ∧ ex kp = true →
      (buildConnectKwargs host port user pw kp ph ex).pkey = some (ph != "") ∧
      (buildConnectKwargs host port user pw kp ph ex).password = none) ∧
    (¬(kp ≠ "" ∧ ex kp = true) → pw ≠ "" →
      (buildConnectKwargs host port user pw kp ph ex).pkey = none ∧
      (buildConnectKwargs host port user pw kp ph ex).password = some pw) ∧
    ((buildConnectKwargs host port user pw kp ph ex).pkey = none ∨
      (buildConnectKwargs host port user pw kp ph ex).password = none) := by
  unfold buildConnectKwargs
  by_cases hkey : kp ≠ "" ∧ ex kp = true
  · rw [if_pos hkey]
    exact ⟨fun _ => ⟨rfl, rfl⟩, fun h => absurd hkey h, Or.inr rfl⟩
  · rw [if_neg hkey]
    by_cases hpw : pw ≠ ""
    · rw [if_pos hpw]
      exact ⟨fun h => absurd h hkey, fun _ _ => ⟨rfl, rfl⟩, Or.inl rfl⟩
    · rw [if_neg hpw]
      exact ⟨fun h => absurd h hkey, fun _ h => absurd h hpw, Or.inl rfl⟩

/-- C6 witness: the amended property applied with both credentials present
and the key file readable. -/
theorem c6_auth_exclusive_amended_witness :
    (buildConnectKwargs "h" 22 "u" "pw" "/k" "sec" (fun _ => true)).pkey
        = some ("sec" != "") ∧
    (buildConnectKwargs "h" 22 "u" "pw" "/k" "sec" (fun _ => true)).password
        = none :=
  (c6_auth_exclusive_amended "h" 22 "u" "pw" "/k" "sec" (fun _ => true)).1
    ⟨by decide, rfl⟩

/-- Concrete active remote forwarder record with two live connections,
used for the stop-ordering counterexample. -/
def remoteFwdInfo : ForwardingInfo :=
  { id := "remote:0.0.0.0:9000", ftype := "remote",
    config := { local_host := "127.0.0.1", local_port := 8000,
                remote_host := "0.0.0.0", remote_port := 9000,
                bind_host := "", bind_port := 0,
                internal_host := "", internal_port := 0,
                has_ssh_client := true },
    active := true, hasListener := false, connCount := 2,
    bytes_sent := 0, bytes_received := 0, start_time := 1, error := none }

/-- C7 counterexample: stopping an active remote forwarder with two live
connections through `PortForwarder.stop_forwarding` closes both
connections and emits the status change, but never issues
`cancel_port_forward` — contradicting the claimed
cancel-before-teardown ordering. -/
theorem c7_remote_stop_counterexample :
    pfStopTrace remoteFwdInfo =
      [StopAction.closeConn 0, StopAction.closeConn 1,
        StopAction.emitStatus false] ∧
    (pfStopTrace remoteFwdInfo).countP StopAction.isCancel = 0 ∧
    (pfStopTrace remoteFwdInfo).countP StopAction.isCloseConn = 2 := by
  exact ⟨rfl, rfl, rfl⟩

/-- C7 (amended): on Stop of a remote forwarder,
`SSHManager.stop_forwarding` calls `cancel_port_forward(remote_host,
remote_port)` and then only emits the status change — it tears down no
live Connection; `PortForwarder.stop_forwarding` tears down every live
Connection but never calls `cancel_port_forward` for any forwarder. -/
theorem c7_stop_trace_amended :
    (∀ f : SshForwarding, f.ftype = "remote" → f.hasTransport = true →
      sshStopTrace f =
        [StopAction.cancelPortForward f.remote_host f.remote_port,
          StopAction.emitStatus false]) ∧
    (∀ g : ForwardingInfo, (pfStopTrace g).countP StopAction.isCancel = 0) := by
  constructor
  · intro f hty htr
    unfold sshStopTrace
    rw [hty]
    simp [htr]
  · intro g
    unfold pfStopTrace
    by_cases hact : g.active = false
    · simp [hact]
    · rw [if_neg hact]
      have h1 : List.countP StopAction.isCancel
          (if g.hasListener then [StopAction.closeListener] else []) = 0 := by
        by_cases hl : g.hasListener = true
        · rw [if_pos hl]
          rfl
        · rw [if_neg hl]
          rfl
      have h2 : List.countP StopAction.isCancel
          ((List.range g.connCount).map StopAction.closeConn) = 0 := by
        rw [List.countP_eq_zero]
        intro a ha
        rcases List.mem_map.mp ha with ⟨i, _, rfl⟩
        simp [StopAction.isCancel]
      have h3 : List.countP StopAction.isCancel
          [StopAction.emitStatus false] = 0 := rfl
      rw [List.countP_append, List.countP_append, h1, h2, h3]

/-- C7 witness: the amended trace shape at a concrete active remote
forwarding of `SSHManager`. -/
theorem c7_stop_trace_amended_witness :
    sshStopTrace
        { ftype := "remote", remote_host := "0.0.0.0", remote_port := 9000,
          local_host := "127.0.0.1", local_port := 8000,
          bind_host := "", bind_port := 0,
          hasTransport := true, active := true } =
      [StopAction.cancelPortForward "0.0.0.0" 9000,
        StopAction.emitStatus false] :=
  c7_stop_trace_amended.1
    { ftype := "remote", remote_host := "0.0.0.0", remote_port := 9000,
      local_host := "127.0.0.1", local_port := 8000,
      bind_host := "", bind_port := 0,
      hasTransport := true, active := true } rfl rfl

/-- C9: through any sequence of operations on a forwarder record — starts,
start failures, stop, connection bookkeeping, byte-pump steps — the
`bytes_sent` and `bytes_received` counters never decrease. -/
theorem c9_counters_monotone (ops : List FwdOp) (f : ForwardingInfo) :
    f.bytes_sent ≤ (ops.foldl applyOp f).bytes_sent ∧
    f.bytes_received ≤ (ops.foldl applyOp f).bytes_received := by
  induction ops generalizing f with
  | nil => exact ⟨le_refl _, le_refl _⟩
  | cons op t ih =>
      have hstep : f.bytes_sent ≤ (applyOp f op).bytes_sent ∧
          f.bytes_received ≤ (applyOp f op).bytes_received := by
        cases op <;>
          simp [applyOp, startOkRecord, setErrRecord, stopRecord]
      have htail := ih (applyOp f op)
      exact ⟨le_trans hstep.1 (by simpa using htail.1),
        le_trans hstep.2 (by simpa using htail.2)⟩


/-- Starting an already-active forwarder is a successful no-op with no
state change and no emission (port_forwarder.py lines 95-97). -/
theorem start_of_active (b : Bool) (n : Nat) (s : FwdRegistry) (fid : String)
    (f : ForwardingInfo) (hl : s.lookup fid = some f) (ha : f.active = true) :
    start_forwarding b n s fid = (true, s, []) := by
  unfold start_forwarding
  rw [hl]
  simp [ha]

/-- Stopping an already-inactive forwarder is a successful no-op with no
state change and no emission (port_forwarder.py lines 134-136). -/
theorem stop_of_inactive (s : FwdRegistry) (fid : String)
    (f : ForwardingInfo) (hl : s.lookup fid = some f) (ha : f.active = false) :
    stop_forwarding s fid = (true, s, []) := by
  unfold stop_forwarding
  rw [hl]
  simp [ha]

set_option maxHeartbeats 1000000 in
/-- After a successful `start_forwarding`, the forwarder's record is
present and active in the resulting registry. -/
theorem start_success_active (b : Bool) (n : Nat) (s : FwdRegistry)
    (fid : String) (h : (start_forwarding b n s fid).1 = true) :
    ∃ f2, ((start_forwarding b n s fid).2.1).lookup fid = some f2 ∧
      f2.active = true := by
  cases hl : s.lookup fid with
  | none => simp only [start_forwarding, hl] at h ⊢; simp at h
  | some f =>
      simp only [start_forwarding, hl] at h ⊢
      by_cases ha : f.active = true
      · simp only [ha, if_true]
        exact ⟨f, hl, ha⟩
      · simp only [ha, if_false] at h ⊢
        split_ifs at h ⊢ <;>
          first
          | (exact ⟨_, by rw [lookup_updateEntry, hl]; rfl, rfl⟩)
          | (exact ⟨f, hl, by assumption⟩)
          | simp_all

/-- After a successful `stop_forwarding`, the forwarder's record is
present and inactive in the resulting registry. -/
theorem stop_success_inactive (s : FwdRegistry) (fid : String)
    (h : (stop_forwarding s fid).1 = true) :
    ∃ f2, ((stop_forwarding s fid).2.1).lookup fid = some f2 ∧
      f2.active = false := by
  cases hl : s.lookup fid with
  | none => simp only [stop_forwarding, hl] at h ⊢; simp at h
  | some f =>
      simp only [stop_forwarding, hl] at h ⊢
      by_cases ha : f.active = false
      · simp only [ha, if_true]
        exact ⟨f, hl, ha⟩
      · rw [if_neg ha]
        exact ⟨_, by rw [lookup_updateEntry, hl]; rfl, rfl⟩

/-- C8: a second `start_forwarding` after a successful one is a successful
no-op — same terminal registry, no further `forwarding_status_changed`
emission, so an activating start emits `active=true` exactly once; and
`stop_forwarding` on an inactive forwarder returns success without
changing state or emitting, so a second stop after a successful stop is
a no-op as well. -/
theorem c8_start_stop_idempotent (b1 b2 : Bool) (n1 n2 : Nat)
    (s : FwdRegistry) (fid : String) :
    ((start_forwarding b1 n1 s fid).1 = true →
      start_forwarding b2 n2 (start_forwarding b1 n1 s fid).2.1 fid
        = (true, (start_forwarding b1 n1 s fid).2.1, [])) ∧
    (∀ f, s.lookup fid = some f → f.active = false →
      stop_forwarding s fid = (true, s, [])) ∧
    ((stop_forwarding s fid).1 = true →
      stop_forwarding (stop_forwarding s fid).2.1 fid
        = (true, (stop_forwarding s fid).2.1, [])) ∧
    (∀ f, s.lookup fid = some f → f.active = false →
      (start_forwarding b1 n1 s fid).1 = true →
      (start_forwarding b1 n1 s fid).2.2 = [(fid, true)]) := by
  refine ⟨?_, ?_, ?_, ?_⟩
  · intro h
    rcases start_success_active b1 n1 s fid h with ⟨f2, hl2, ha2⟩
    exact start_of_active b2 n2 _ fid f2 hl2 ha2
  · intro f hl ha
    exact stop_of_inactive s fid f hl ha
  · intro h
    rcases stop_success_inactive s fid h with ⟨f2, hl2, ha2⟩
    exact stop_of_inactive _ fid f2 hl2 ha2
  · intro f hl ha h
    simp only [start_forwarding, hl] at h ⊢
    simp only [ha, Bool.false_eq_true, if_false] at h ⊢
    split_ifs at h ⊢ <;> simp_all

/-- Concrete one-entry registry used by the C8 witness. -/
def c8Reg : FwdRegistry :=
  [("local:127.0.0.1:8000", initInfo "local:127.0.0.1:8000" "local" localCfg)]

/-- C8 witness: the idempotence property applied at a concrete registry
holding one inactive local forwarder that starts successfully. -/
theorem c8_start_stop_idempotent_witness :
    start_forwarding true 5
        (start_forwarding true 3 c8Reg "local:127.0.0.1:8000").2.1
        "local:127.0.0.1:8000"
      = (true,
          (start_forwarding true 3 c8Reg "local:127.0.0.1:8000").2.1, []) ∧
    (start_forwarding true 3 c8Reg "local:127.0.0.1:8000").2.2
      = [("local:127.0.0.1:8000", true)] :=
  ⟨(c8_start_stop_idempotent true true 3 5 c8Reg "local:127.0.0.1:8000").1
      (by decide),
    (c8_start_stop_idempotent true true 3 5 c8Reg
        "local:127.0.0.1:8000").2.2.2
      (initInfo "local:127.0.0.1:8000" "local" localCfg) (by decide) rfl
      (by decide)⟩


/-- C10: for every Fernet box, UTF-8 codec and base64 codec satisfying the
library contracts, `decrypt_from_string (encrypt_to_string s) = s` for
every string `s`, and the empty string maps to the empty string in both
directions through the empty-input branches. -/
theorem c10_encrypt_roundtrip (F : FernetBox) (U : Utf8Codec)
    (B : Base64Codec) (s : String) :
    decrypt_from_string F U B (encrypt_to_string F U B s) = s ∧
    encrypt_to_string F U B "" = "" ∧
    decrypt_from_string F U B "" = "" := by
  refine ⟨?_, rfl, rfl⟩
  by_cases hs : s = ""
  · subst hs
    rfl
  · have hU := U.dec_enc s
    have hF := F.dec_enc (U.enc s)
    have hFne := F.enc_ne (U.enc s)
    have hBne := B.enc_ne _ hFne
    have hB := B.dec_enc (F.enc (U.enc s))
    simp only [encrypt_to_string, encryptBytes, decrypt_from_string,
      decryptBytes, if_neg hs, if_neg hFne, if_neg hBne, hB, hF, hU]

/-- Concrete Fernet box for the C10 witness: prepend a marker byte. -/
def fernetW : FernetBox where
  enc m := 0 :: m
  dec l :=
    match l with
    | [] => none
    | a :: m => if a = 0 then some m else none
  enc_ne m := by simp
  dec_enc m := by simp

/-- Concrete UTF-8 codec for the C10 witness: code points of the string. -/
def utf8W : Utf8Codec where
  enc s := s.data.map Char.toNat
  dec l := some (String.mk (l.map Char.ofNat))
  dec_enc s := by
    cases s with
    | mk data => simp [List.map_map, Function.comp_def, Char.ofNat_toNat]

/-- Unary rendering of a byte list used by the concrete base64 codec of
the C10 witness: each byte `n` becomes `n` copies of `a` and a `b`. -/
def ub64chars : List Nat → List Char
  | [] => []
  | n :: t => List.replicate n 'a' ++ 'b' :: ub64chars t

/-- Decoder of `ub64chars`: counts runs of `a` terminated by `b`. -/
def ub64go : List Char → Nat → List Nat → Option (List Nat)
  | [], k, acc => if k = 0 then some acc.reverse else none
  | c :: cs, k, acc =>
      if c = 'a' then ub64go cs (k + 1) acc
      else if c = 'b' then ub64go cs 0 (k :: acc)
      else none

/-- Decoding one unary run prepends its count to the accumulator. -/
theorem ub64go_run (n : Nat) : ∀ (cs : List Char) (k : Nat) (acc : List Nat),
    ub64go (List.replicate n 'a' ++ 'b' :: cs) k acc =
      ub64go cs 0 ((k + n) :: acc) := by
  induction n with
  | zero => intro cs k acc; simp [ub64go]
  | succ n ih =>
      intro cs k acc
      rw [List.replicate_succ, List.cons_append]
      show ub64go ('a' :: (List.replicate n 'a' ++ 'b' :: cs)) k acc = _
      rw [ub64go, if_pos rfl, ih]
      have harith : k + 1 + n = k + (n + 1) := by omega
      rw [harith]

/-- Decoding the rendering of `bs` followed by anything accumulates
`bs.reverse`. -/
theorem ub64chars_spec (bs : List Nat) :
    ∀ (cs : List Char) (acc : List Nat),
      ub64go (ub64chars bs ++ cs) 0 acc =
        ub64go cs 0 (bs.reverse ++ acc) := by
  induction bs with
  | nil => intro cs acc; simp [ub64chars]
  | cons n t ih =>
      intro cs acc
      rw [ub64chars, List.append_assoc, List.cons_append, ub64go_run, ih]
      simp

/-- Concrete base64 codec for the C10 witness, built on the unary
rendering. -/
def b64W : Base64Codec where
  enc b := String.mk (ub64chars b)
  dec s := ub64go s.data 0 []
  dec_enc b := by
    show ub64go (ub64chars b) 0 [] = some b
    have h := ub64chars_spec b [] []
    rw [List.append_nil] at h
    rw [h]
    simp [ub64go]
  enc_ne b hb := by
    cases b with
    | nil => exact absurd rfl hb
    | cons n t =>
        intro h
        have hd : ub64chars (n :: t) = [] := congrArg String.data h
        rw [ub64chars] at hd
        simp at hd

/-- C10 witness: the round trip evaluated at `"secret"` through the
concrete codec instances. -/
theorem c10_encrypt_roundtrip_witness :
    decrypt_from_string fernetW utf8W b64W
        (encrypt_to_string fernetW utf8W b64W "secret") = "secret" :=
  (c10_encrypt_roundtrip fernetW utf8W b64W "secret").1

end SSHFwd
